import Mathlib

/-!
Shallow embedding of `src/main.ts` (TypeScript namespace `limits`), a MakeCode
extension driving the PCA9685 16-channel PWM servo board over I2C.

Bus traffic is modelled as a trace of `BusEvent` values; the single mutable
module-level flag `PCA9685_init` is the driver state, threaded explicitly.
The byte returned by the prescaler read-back is supplied as an oracle
parameter `d`, since it comes from the external bus collaborator.

Where the source leaves behaviour unimplemented (the angle encoder and the
per-channel pulse-profile store exist only in the specification; the source
declares the `PulseRange` enum but no code uses it), definitions are
modelled from the specification and marked as such in their doc comments.
-/

namespace limits

/-- Default chip address (`CHIP_ADDRESS`, src/main.ts line 14). -/
def CHIP_ADDRESS : ℕ := 0x6A

/-- Mode 1 register address (line 15). -/
def REG_MODE1 : ℕ := 0x00

/-- Mode 2 register address (line 16). -/
def REG_MODE2 : ℕ := 0x01

/-- Servo 1 base address (line 21): the LED0 register block starts here. -/
def REG_SERVO1_REG_BASE : ℕ := 0x06

/-- All LED on low register address (line 23). -/
def REG_ALL_LED_ON_L : ℕ := 0xFA

/-- All LED on high register address (line 24). -/
def REG_ALL_LED_ON_H : ℕ := 0xFB

/-- All LED off low register address (line 25). -/
def REG_ALL_LED_OFF_L : ℕ := 0xFC

/-- All LED off high register address (line 26). -/
def REG_ALL_LED_OFF_H : ℕ := 0xFD

/-- Pre-scaler register address (line 27). -/
def REG_PRE_SCALE : ℕ := 0xFE

/-- Pre-scaler value for 50Hz (line 29). -/
def PWM_FREQUENCY : ℕ := 0x1E

/-- The sixteen servo channels (`enum Servos`, lines 42-59). Each enum value
is the channel's register offset in the PCA9685 (its off-low register). -/
inductive Servos
  | Servo1
  | Servo2
  | Servo3
  | Servo4
  | Servo5
  | Servo6
  | Servo7
  | Servo8
  | Servo9
  | Servo10
  | Servo11
  | Servo12
  | Servo13
  | Servo14
  | Servo15
  | Servo16
deriving DecidableEq, Fintype

/-- The numeric value of each `Servos` enum member, exactly as written in the
source (lines 43-58). -/
def Servos.toNat : Servos → ℕ
  | .Servo1 => 0x08
  | .Servo2 => 0x0C
  | .Servo3 => 0x10
  | .Servo4 => 0x14
  | .Servo5 => 0x18
  | .Servo6 => 0x1C
  | .Servo7 => 0x20
  | .Servo8 => 0x24
  | .Servo9 => 0x28
  | .Servo10 => 0x2C
  | .Servo11 => 0x30
  | .Servo12 => 0x34
  | .Servo13 => 0x38
  | .Servo14 => 0x3C
  | .Servo15 => 0x40
  | .Servo16 => 0x44

/-- Zero-based index of a channel (Servo1 ↦ 0, ..., Servo16 ↦ 15). -/
def Servos.index : Servos → ℕ
  | .Servo1 => 0
  | .Servo2 => 1
  | .Servo3 => 2
  | .Servo4 => 3
  | .Servo5 => 4
  | .Servo6 => 5
  | .Servo7 => 6
  | .Servo8 => 7
  | .Servo9 => 8
  | .Servo10 => 9
  | .Servo11 => 10
  | .Servo12 => 11
  | .Servo13 => 12
  | .Servo14 => 13
  | .Servo15 => 14
  | .Servo16 => 15

/-- Channel register base (the commented `Servo1RegBase = 0x08`, line 33). -/
def servoRegBase : ℕ := 0x08

/-- Stride between the register blocks of consecutive channels
(the commented `ServoRegDistance = 4`, line 34). -/
def servoRegDistance : ℕ := 4

/-- The four register addresses of a channel (on-low, on-high, off-low,
off-high): the LED register block of channel `c` starts at
`REG_SERVO1_REG_BASE + 4 * index c`, and the enum value itself is the
off-low register, with off-high one above it (as used by the commented
legacy write path, lines 180-191). -/
def Servos.regAddrs (c : Servos) : ℕ × ℕ × ℕ × ℕ :=
  (REG_SERVO1_REG_BASE + servoRegDistance * c.index,
   REG_SERVO1_REG_BASE + servoRegDistance * c.index + 1,
   c.toNat,
   c.toNat + 1)

/-- The six pulse-range profiles (`enum PulseRange`, lines 65-72). -/
inductive PulseRange
  | R500_2500uS
  | R600_2400uS
  | R700_2300uS
  | R800_2200uS
  | R900_2100uS
  | R1000_2000uS
deriving DecidableEq, Fintype

/-- The numeric value of each `PulseRange` enum member (lines 66-71). -/
def PulseRange.toNat : PulseRange → ℕ
  | .R500_2500uS => 1
  | .R600_2400uS => 2
  | .R700_2300uS => 3
  | .R800_2200uS => 4
  | .R900_2100uS => 5
  | .R1000_2000uS => 6

/-- One observable step of the driver: an I2C register write
(`pins.i2cWriteBuffer` with `buf[0] = reg, buf[1] = val`), a register
read-back (`readReg`, which abstracts the pointer write plus read of
lines 112-113), the diagnostic display (`basic.showNumber`), the blocking
delay (`basic.pause`), and the setting of the module init flag. -/
inductive BusEvent
  | write (addr reg val : ℕ)
  | readReg (addr reg : ℕ)
  | showNum (n : ℕ)
  | pause (ms : ℕ)
  | setReady
deriving DecidableEq

/-- The driver's mutable module state: the flag `PCA9685_init` (line 39). -/
structure DriverState where
  PCA9685_init : Bool
deriving DecidableEq

/-- Process-startup state: `PCA9685_init = false` (line 39). -/
def initialState : DriverState := ⟨false⟩

/-- Embedding of `initialisation()` (lines 128-152), as the final state and
the ordered trace of its observable steps. `d` is the byte returned by the
prescaler read-back (line 133), supplied by the bus collaborator. -/
def initialisation (d : ℕ) (s : DriverState) : DriverState × List BusEvent :=
  ({ s with PCA9685_init := true },
   [BusEvent.write CHIP_ADDRESS REG_PRE_SCALE PWM_FREQUENCY,
    BusEvent.readReg CHIP_ADDRESS REG_PRE_SCALE,
    BusEvent.showNum d,
    BusEvent.write CHIP_ADDRESS REG_ALL_LED_ON_L 0x00,
    BusEvent.write CHIP_ADDRESS REG_ALL_LED_ON_H 0x00,
    BusEvent.write CHIP_ADDRESS REG_ALL_LED_OFF_L 0x23,
    BusEvent.write CHIP_ADDRESS REG_ALL_LED_OFF_H 0x01,
    BusEvent.write CHIP_ADDRESS REG_MODE1 0x01,
    BusEvent.pause 10,
    BusEvent.setReady])

/-- Embedding of `servoWrite(Servo, degrees)` (lines 165-193): if the chip
is uninitialised, run `initialisation`; the per-channel write path
(lines 169-192) is commented out in the source, so nothing else happens.
`d` is the read-back oracle passed through to `initialisation`. -/
def servoWrite (d : ℕ) (Servo : Servos) (degrees : ℚ) (s : DriverState) :
    DriverState × List BusEvent :=
  if s.PCA9685_init = false then initialisation d s
  else (s, [])

/-- Run a sequence of `servoWrite` calls, concatenating their traces. Each
call is a triple of a read-back oracle byte, a channel and an angle. -/
def runWrites : List (ℕ × Servos × ℚ) → DriverState → DriverState × List BusEvent
  | [], s => (s, [])
  | (d, ch, a) :: rest, s =>
      let r1 := servoWrite d ch a s
      let r2 := runWrites rest r1.1
      (r2.1, r1.2 ++ r2.2)

/-- Number of bus write transactions addressed to register `reg` in a trace. -/
def countWritesTo (reg : ℕ) : List BusEvent → ℕ
  | [] => 0
  | BusEvent.write _ r _ :: t => (if r = reg then 1 else 0) + countWritesTo reg t
  | BusEvent.readReg _ _ :: t => countWritesTo reg t
  | BusEvent.showNum _ :: t => countWritesTo reg t
  | BusEvent.pause _ :: t => countWritesTo reg t
  | BusEvent.setReady :: t => countWritesTo reg t

/-- Modelled from the spec: the minimum pulse width in microseconds carried
by each `PulseRange` profile. The source declares the enum only; the profile
bounds appear in the spec (§3 PulseProfile, §6) and in the enum names. -/
def minPulseUs : PulseRange → ℚ
  | .R500_2500uS => 500
  | .R600_2400uS => 600
  | .R700_2300uS => 700
  | .R800_2200uS => 800
  | .R900_2100uS => 900
  | .R1000_2000uS => 1000

/-- Modelled from the spec: the maximum pulse width in microseconds carried
by each `PulseRange` profile. -/
def maxPulseUs : PulseRange → ℚ
  | .R500_2500uS => 2500
  | .R600_2400uS => 2400
  | .R700_2300uS => 2300
  | .R800_2200uS => 2200
  | .R900_2100uS => 2100
  | .R1000_2000uS => 2000

/-- Modelled from the spec: `countsPerUs = 4096 / 20000` (§4.4), the chip
count resolution at the fixed 50 Hz frame rate. -/
def countsPerUs : ℚ := 4096 / 20000

/-- Modelled from the spec: clamp the requested angle to `[0, 180]`
(§4.4 step 1, defensive clamping of out-of-range angles). -/
def clampAngle (a : ℚ) : ℚ := max 0 (min a 180)

/-- Modelled from the spec: the linearly interpolated pulse width,
`pulseUs = minPulseUs + (angle / 180) * (maxPulseUs - minPulseUs)`
(§4.4 step 2), applied to the clamped angle. -/
def pulseUs (angleDegrees : ℚ) (profile : PulseRange) : ℚ :=
  minPulseUs profile +
    (clampAngle angleDegrees / 180) * (maxPulseUs profile - minPulseUs profile)

/-- Modelled from the spec: the AngleEncoder,
`encode(angleDegrees, profile) = floor(pulseUs * countsPerUs)` (§4.4 step 3).
The encoder is absent from the source (the channel write path is commented
out); this follows the spec's formula. -/
def encode (angleDegrees : ℚ) (profile : PulseRange) : ℤ :=
  Int.floor (pulseUs angleDegrees profile * countsPerUs)

/-- Modelled from the spec: the ServoController state, pairing the driver
init flag with the per-channel profile association (§3 ChannelConfig). The
per-channel store is absent from the source. -/
structure ControllerState where
  driver : DriverState
  profiles : Servos → PulseRange

/-- Modelled from the spec: `setPulseProfile(channel, profile)` records the
per-channel profile with no bus traffic (§4.5). Absent from the source;
modelled on the spec's contract. Returns the new state and the (empty)
trace of bus events. -/
def setPulseProfile (channel : Servos) (profile : PulseRange)
    (s : ControllerState) : ControllerState × List BusEvent :=
  ({ s with profiles := fun c => if c = channel then profile else s.profiles c }, [])

/-! ### Helper lemmas -/

/-- A `servoWrite` sequence from an already-initialised state changes
nothing and emits no bus traffic. -/
theorem runWrites_inited (calls : List (ℕ × Servos × ℚ)) (s : DriverState)
    (h : s.PCA9685_init = true) : runWrites calls s = (s, []) := by
  induction calls with
  | nil => rfl
  | cons c rest ih =>
      obtain ⟨d, ch, a⟩ := c
      simp [runWrites, servoWrite, h, ih]

/-- Every profile's pulse bounds: at least 500 µs, strictly increasing,
at most 2500 µs. -/
theorem profile_bounds (p : PulseRange) :
    500 ≤ minPulseUs p ∧ minPulseUs p < maxPulseUs p ∧ maxPulseUs p ≤ 2500 := by
  cases p <;> norm_num [minPulseUs, maxPulseUs]

/-- The clamped angle is monotone in the requested angle. -/
theorem clampAngle_mono {a b : ℚ} (h : a ≤ b) : clampAngle a ≤ clampAngle b :=
  max_le_max le_rfl (min_le_min h le_rfl)

/-- The clamped angle is nonnegative. -/
theorem clampAngle_nonneg (a : ℚ) : 0 ≤ clampAngle a := le_max_left 0 _

/-- The clamped angle is at most 180. -/
theorem clampAngle_le (a : ℚ) : clampAngle a ≤ 180 :=
  max_le (by norm_num) (min_le_right a 180)

/-- The interpolated pulse width is monotone in the requested angle. -/
theorem pulseUs_mono (p : PulseRange) {a b : ℚ} (h : a ≤ b) :
    pulseUs a p ≤ pulseUs b p := by
  have hc := clampAngle_mono h
  have hb := profile_bounds p
  have hd : 0 ≤ maxPulseUs p - minPulseUs p := by linarith [hb.2.1]
  have hdiv : clampAngle a / 180 ≤ clampAngle b / 180 := by linarith
  unfold pulseUs
  have := mul_le_mul_of_nonneg_right hdiv hd
  linarith

/-- The interpolated pulse width is at least 500 µs. -/
theorem pulseUs_ge (a : ℚ) (p : PulseRange) : 500 ≤ pulseUs a p := by
  have hb := profile_bounds p
  have hd : 0 ≤ maxPulseUs p - minPulseUs p := by linarith [hb.2.1]
  have h0 : 0 ≤ clampAngle a / 180 := by
    have := clampAngle_nonneg a
    positivity
  have := mul_nonneg h0 hd
  unfold pulseUs
  linarith

/-- The interpolated pulse width is at most 2500 µs. -/
theorem pulseUs_le (a : ℚ) (p : PulseRange) : pulseUs a p ≤ 2500 := by
  have hb := profile_bounds p
  have hd : 0 ≤ maxPulseUs p - minPulseUs p := by linarith [hb.2.1]
  have h1 : clampAngle a / 180 ≤ 1 := by
    have := clampAngle_le a
    linarith
  have hmul : (clampAngle a / 180) * (maxPulseUs p - minPulseUs p) ≤
      maxPulseUs p - minPulseUs p := by
    nlinarith [mul_nonneg (by linarith : (0:ℚ) ≤ 1 - clampAngle a / 180) hd]
  unfold pulseUs
  linarith

/-! ### Claim theorems -/

/-- Claim C1 (evidence of the code bug): in the initialized state,
`servoWrite` issues no bus transaction at all — evaluated at Servo1,
angle 90 — because the channel-specific write path is commented out,
contradicting the claimed pair of writes to the channel's off-low and
off-high registers. -/
theorem servoWrite_initialized_no_bus_writes :
    servoWrite 0x1E Servos.Servo1 90 { PCA9685_init := true } =
      ({ PCA9685_init := true }, []) := rfl

/-- Claim C2 (evidence of the code bug): the sixth step of the
initialisation trace writes the byte 0x23 — not 0x33 — to the all-LED
off-low register, so the broadcast count is 0x123 = 291, not the
0x133 = 307 stated by the claim and by the source's own line comment. -/
theorem initialisation_offLow_byte :
    (initialisation 0x1E initialState).2[5]? =
      some (BusEvent.write CHIP_ADDRESS REG_ALL_LED_OFF_L 0x23) ∧
    BusEvent.write CHIP_ADDRESS REG_ALL_LED_OFF_L 0x33 ∉
      (initialisation 0x1E initialState).2 := by
  exact ⟨rfl, by decide⟩

/-- Claim C3: the init flag is `false` at startup; a servo write in the
initialized state performs no re-initialization (and so the flag never
reverts); and for any nonempty sequence of `servoWrite` calls from startup,
the prescaler-register write and the four broadcast register writes each
occur exactly once, all during the first call. -/
theorem init_flag_once (d : ℕ) (ch : Servos) (a : ℚ) (s : DriverState)
    (h : s.PCA9685_init = true) (first : ℕ × Servos × ℚ)
    (rest : List (ℕ × Servos × ℚ)) :
    initialState.PCA9685_init = false ∧
    servoWrite d ch a s = (s, []) ∧
    (runWrites (first :: rest) initialState).1.PCA9685_init = true ∧
    countWritesTo REG_PRE_SCALE (runWrites (first :: rest) initialState).2 = 1 ∧
    countWritesTo REG_ALL_LED_ON_L (runWrites (first :: rest) initialState).2 = 1 ∧
    countWritesTo REG_ALL_LED_ON_H (runWrites (first :: rest) initialState).2 = 1 ∧
    countWritesTo REG_ALL_LED_OFF_L (runWrites (first :: rest) initialState).2 = 1 ∧
    countWritesTo REG_ALL_LED_OFF_H (runWrites (first :: rest) initialState).2 = 1 := by
  obtain ⟨d0, ch0, a0⟩ := first
  have hrest : runWrites rest { PCA9685_init := true } =
      ({ PCA9685_init := true }, []) :=
    runWrites_inited rest { PCA9685_init := true } rfl
  refine ⟨rfl, by simp [servoWrite, h], ?_, ?_, ?_, ?_, ?_, ?_⟩ <;>
    simp [runWrites, servoWrite, initialState, initialisation, hrest,
      countWritesTo, REG_PRE_SCALE, REG_ALL_LED_ON_L, REG_ALL_LED_ON_H,
      REG_ALL_LED_OFF_L, REG_ALL_LED_OFF_H, REG_MODE1, CHIP_ADDRESS]

/-- Witness for C3 at concrete inputs. -/
theorem init_flag_once_witness :
    DriverState.PCA9685_init { PCA9685_init := true } = true ∧
    (initialState.PCA9685_init = false ∧
     servoWrite 0 Servos.Servo1 90 { PCA9685_init := true } =
       ({ PCA9685_init := true }, []) ∧
     (runWrites [(0x1E, Servos.Servo2, 45)] initialState).1.PCA9685_init = true ∧
     countWritesTo REG_PRE_SCALE
       (runWrites [(0x1E, Servos.Servo2, 45)] initialState).2 = 1 ∧
     countWritesTo REG_ALL_LED_ON_L
       (runWrites [(0x1E, Servos.Servo2, 45)] initialState).2 = 1 ∧
     countWritesTo REG_ALL_LED_ON_H
       (runWrites [(0x1E, Servos.Servo2, 45)] initialState).2 = 1 ∧
     countWritesTo REG_ALL_LED_OFF_L
       (runWrites [(0x1E, Servos.Servo2, 45)] initialState).2 = 1 ∧
     countWritesTo REG_ALL_LED_OFF_H
       (runWrites [(0x1E, Servos.Servo2, 45)] initialState).2 = 1) :=
  ⟨rfl, init_flag_once 0 Servos.Servo1 90 { PCA9685_init := true } rfl
    (0x1E, Servos.Servo2, 45) []⟩

/-- Claim C4: `initialisation` performs, in order: the prescaler write, the
prescaler read-back (with its diagnostic display), the broadcast on-low and
on-high writes of zero, the broadcast off-low and off-high writes, the mode
register write of 0x01 enabling normal operation, a 10 ms settle delay, and
only then the transition to the initialized state. -/
theorem initialisation_ordered_steps (d : ℕ) (s : DriverState) :
    initialisation d s =
      ({ PCA9685_init := true },
       [BusEvent.write CHIP_ADDRESS REG_PRE_SCALE PWM_FREQUENCY,
        BusEvent.readReg CHIP_ADDRESS REG_PRE_SCALE,
        BusEvent.showNum d,
        BusEvent.write CHIP_ADDRESS REG_ALL_LED_ON_L 0x00,
        BusEvent.write CHIP_ADDRESS REG_ALL_LED_ON_H 0x00,
        BusEvent.write CHIP_ADDRESS REG_ALL_LED_OFF_L 0x23,
        BusEvent.write CHIP_ADDRESS REG_ALL_LED_OFF_H 0x01,
        BusEvent.write CHIP_ADDRESS REG_MODE1 0x01,
        BusEvent.pause 10,
        BusEvent.setReady]) := rfl

/-- Claim C5: once the init flag is true, `servoWrite` is a complete no-op:
state unchanged, no bus events, and its result does not depend on the
`degrees` argument. -/
theorem servoWrite_noop_when_ready (d : ℕ) (ch : Servos) (a b : ℚ)
    (s : DriverState) (h : s.PCA9685_init = true) :
    servoWrite d ch a s = (s, []) ∧ servoWrite d ch a s = servoWrite d ch b s :=
  ⟨by simp [servoWrite, h], rfl⟩

/-- Witness for C5 at concrete inputs. -/
theorem servoWrite_noop_when_ready_witness :
    DriverState.PCA9685_init { PCA9685_init := true } = true ∧
    (servoWrite 5 Servos.Servo3 120 { PCA9685_init := true } =
       ({ PCA9685_init := true }, []) ∧
     servoWrite 5 Servos.Servo3 120 { PCA9685_init := true } =
       servoWrite 5 Servos.Servo3 7 { PCA9685_init := true }) :=
  ⟨rfl, servoWrite_noop_when_ready 5 Servos.Servo3 120 7 { PCA9685_init := true } rfl⟩

/-- Claim C6: for every one of the six profiles, `encode 0` is
`floor(minPulseUs * 4096/20000)` and `encode 180` is
`floor(maxPulseUs * 4096/20000)`; for the 1000-2000 µs profile these are
204 and 409. -/
theorem encode_endpoints :
    (∀ p : PulseRange,
      encode 0 p = Int.floor (minPulseUs p * (4096 / 20000 : ℚ)) ∧
      encode 180 p = Int.floor (maxPulseUs p * (4096 / 20000 : ℚ))) ∧
    encode 0 PulseRange.R1000_2000uS = 204 ∧
    encode 180 PulseRange.R1000_2000uS = 409 := by
  refine ⟨fun p => ?_, ?_, ?_⟩
  · cases p <;> constructor <;>
      norm_num [encode, pulseUs, clampAngle, minPulseUs, maxPulseUs, countsPerUs]
  · norm_num [encode, pulseUs, clampAngle, minPulseUs, maxPulseUs, countsPerUs]
  · norm_num [encode, pulseUs, clampAngle, minPulseUs, maxPulseUs, countsPerUs]

/-- Claim C7: for every profile and angles `a1 ≤ a2` within `[0, 180]`,
`encode` is monotone, and its value at each of the two angles is
nonnegative and below 4096. -/
theorem encode_monotone_and_bounded (p : PulseRange) (a1 a2 : ℚ)
    (h0 : 0 ≤ a1) (h12 : a1 ≤ a2) (h2 : a2 ≤ 180) :
    encode a1 p ≤ encode a2 p ∧
    (0 ≤ encode a1 p ∧ encode a1 p < 4096) ∧
    (0 ≤ encode a2 p ∧ encode a2 p < 4096) := by
  have hc : (0:ℚ) < countsPerUs := by norm_num [countsPerUs]
  have bound : ∀ a : ℚ, 0 ≤ encode a p ∧ encode a p < 4096 := by
    intro a
    constructor
    · exact Int.floor_nonneg.mpr
        (mul_nonneg (by linarith [pulseUs_ge a p]) hc.le)
    · have h2500 : (2500:ℚ) * countsPerUs = 512 := by norm_num [countsPerUs]
      have hle : pulseUs a p * countsPerUs ≤ 512 := by
        have := mul_le_mul_of_nonneg_right (pulseUs_le a p) hc.le
        linarith
      have hfl : encode a p ≤ Int.floor ((512:ℚ)) := Int.floor_mono hle
      have h512 : Int.floor ((512:ℚ)) = 512 := by norm_num
      linarith
  exact ⟨Int.floor_mono
      (mul_le_mul_of_nonneg_right (pulseUs_mono p h12) hc.le),
    bound a1, bound a2⟩

/-- Witness for C7 at concrete inputs. -/
theorem encode_monotone_and_bounded_witness :
    ((0:ℚ) ≤ 0 ∧ (0:ℚ) ≤ 180 ∧ (180:ℚ) ≤ 180) ∧
    (encode 0 PulseRange.R500_2500uS ≤ encode 180 PulseRange.R500_2500uS ∧
     (0 ≤ encode 0 PulseRange.R500_2500uS ∧
      encode 0 PulseRange.R500_2500uS < 4096) ∧
     (0 ≤ encode 180 PulseRange.R500_2500uS ∧
      encode 180 PulseRange.R500_2500uS < 4096)) :=
  ⟨⟨by norm_num, by norm_num, by norm_num⟩,
   encode_monotone_and_bounded PulseRange.R500_2500uS 0 180
     (by norm_num) (by norm_num) (by norm_num)⟩

/-- Claim C8: for every channel (and any driver state), calling the
angle-write operation with angle −10 behaves exactly like calling it with
angle 0, and angle 200 exactly like angle 180: identical resulting state
and identical bus traffic. -/
theorem servoWrite_clamp_equiv (d : ℕ) (ch : Servos) (s : DriverState) :
    servoWrite d ch (-10) s = servoWrite d ch 0 s ∧
    servoWrite d ch 200 s = servoWrite d ch 180 s := ⟨rfl, rfl⟩

/-- Claim C9: the channel-to-register mapping is total (each channel's enum
value is the constant base 0x08 plus the fixed stride 4 times its index) and
injective: no two distinct channels share register addresses, for the full
on-low/on-high/off-low/off-high quadruple as well as for the raw enum
value. -/
theorem channel_map_total_injective :
    (∀ c : Servos, c.toNat = servoRegBase + servoRegDistance * c.index) ∧
    Function.Injective Servos.regAddrs ∧
    Function.Injective Servos.toNat :=
  ⟨by decide, by decide, by decide⟩

/-- Claim C10: `setPulseProfile` records the given profile for the given
channel, emits no bus traffic, always succeeds (it is a total function),
and changes nothing else: the driver state is untouched and every other
channel keeps its profile. -/
theorem setPulseProfile_records_no_bus (ch : Servos) (p : PulseRange)
    (s : ControllerState) :
    (setPulseProfile ch p s).1.profiles ch = p ∧
    (setPulseProfile ch p s).2 = [] ∧
    (setPulseProfile ch p s).1.driver = s.driver ∧
    ∀ c : Servos, (setPulseProfile ch p s).1.profiles c =
      if c = ch then p else s.profiles c :=
  ⟨by simp [setPulseProfile], rfl, rfl, fun c => rfl⟩

end limits
